import Mathlib

/-!
Verification of the disc-party audio library organizer (`src/main.py`)
against its specification.

The development shallowly embeds the Python program:

* `PyVal` models the Python values that flow through the tag-reading code
  (`None`, `int`, `str`, and list/tuple sequences; `bool`/`float` never
  occur in the embedded paths and are not modelled).
* `PyErr` models the exceptions the embedded code can raise.  Python
  raises `ValueError` both for a failed `int()` conversion and for the
  explicit "unsupported or corrupt file" raise in `read_basic_tags`;
  the two are distinguished here (as they are by their messages and by
  the spec's error taxonomy).
* Fallible code returns `Except PyErr _`; pure code is pure.
-/

/-- Model of the Python values handled by `read_basic_tags` and its
local helpers.  `list` models both Python `list` and `tuple`: every
dynamic test in the source checks `isinstance(v, (list, tuple))`, so the
two behave identically there. -/
inductive PyVal where
  | none
  | int (n : Int)
  | str (s : String)
  | list (xs : List PyVal)

/-- Model of the exceptions the embedded code can raise.
`valueError` stands for a failed `int()` conversion (Python raises
`ValueError` for a malformed string and `TypeError` for `None`/sequences;
the claims do not distinguish those, so both map here), `indexError` for
subscripting an empty sequence, and `unsupported` for the explicit
`raise ValueError("지원되지 않는 파일이거나 손상된 파일: ...")` in
`read_basic_tags` (the spec's `UnsupportedOrCorruptFile`). -/
inductive PyErr where
  | valueError
  | indexError
  | unsupported
  deriving DecidableEq

/-- String equality via the character list (used for dict-key lookups). -/
def strEq (a b : String) : Bool := a.data == b.data

/-- Python truthiness for the modelled values: `None`, `0`, `""` and the
empty sequence are falsy. -/
def pyTruthy : PyVal → Bool
  | .none => false
  | .int n => n != 0
  | .str s => !s.data.isEmpty
  | .list xs => !xs.isEmpty

/-- Python `str()` on the modelled values.  `str(None) = "None"` is what
feeds the `"None"` placeholders of the destination names.  Sequences are
never passed to `str()` on the embedded code paths, so their repr is not
modelled precisely. -/
def pyStr : PyVal → String
  | .none => "None"
  | .int n => toString n
  | .str s => s
  | .list _ => "[...]"

/-- Python `x or y`: `y` when `x` is falsy, else `x`. -/
def pyOr (a b : PyVal) : PyVal := if pyTruthy a then a else b

/-- The local helper `_first` of `read_basic_tags`: first element of a
list/tuple (or `None` when empty), any other value unchanged. -/
def pyFirst : PyVal → PyVal
  | .list [] => .none
  | .list (x :: _) => x
  | v => v

/-- Python `dict.get(k)` over an association-list model of the tag
container: the first value stored under `k`, or `None`. -/
def dictGet (tags : List (String × PyVal)) (k : String) : PyVal :=
  match tags.find? (fun p => strEq p.1 k) with
  | some p => p.2
  | Option.none => .none

/-- Characters stripped by Python `str.strip()` (ASCII whitespace). -/
def isPySpace (c : Char) : Bool :=
  c = ' ' || c = '\t' || c = '\n' || c = '\r' || c = '\x0b' || c = '\x0c'

/-- Python `str.strip()` on a character list. -/
def stripChars (l : List Char) : List Char :=
  ((l.dropWhile isPySpace).reverse.dropWhile isPySpace).reverse

/-- Python `str.strip()`. -/
def pyStrip (s : String) : String := ⟨stripChars s.data⟩

/-- Accumulate a decimal value; `Option.none` at the first non-digit. -/
def digitsValAux : List Char → Nat → Option Nat
  | [], acc => some acc
  | c :: rest, acc =>
      if c.isDigit then digitsValAux rest (10 * acc + (c.toNat - 48))
      else Option.none

/-- Value of a non-empty all-digit character list. -/
def digitsVal (l : List Char) : Option Nat :=
  match l with
  | [] => Option.none
  | _ => digitsValAux l 0

/-- Python `int()` applied to a stripped character list: an optional
sign followed by a non-empty run of digits (ASCII model; Unicode digits
and underscore separators are not modelled). -/
def parseIntChars (l : List Char) : Option Int :=
  match l with
  | '+' :: rest => (digitsVal rest).map (fun n => (n : Int))
  | '-' :: rest => (digitsVal rest).map (fun n => -(n : Int))
  | _ => (digitsVal l).map (fun n => (n : Int))

/-- Python `int(s)` for a string `s` (`int()` strips whitespace itself):
`some` the parsed integer, `Option.none` when the conversion would raise. -/
def pyIntOfString (s : String) : Option Int := parseIntChars (stripChars s.data)

/-- The local helper `_safe_int` of `read_basic_tags`:
`int(str(x).strip())` with every exception mapped to `None`.  In
particular `_safe_int(None)` parses the text `"None"` and yields `None`. -/
def safe_int (x : PyVal) : Option Int := pyIntOfString (pyStrip (pyStr x))

/-- Python `str.isdigit()` (ASCII model): non-empty and all digits. -/
def pyIsDigit (s : String) : Bool := !s.data.isEmpty && s.data.all Char.isDigit

/-- Python `s.split("/", 1)`: the parts before and after the first `/`
(the whole string and nothing when no `/` occurs; only called when one
does). -/
def splitFirstSlash (l : List Char) : List Char × List Char :=
  match l with
  | [] => ([], [])
  | c :: rest =>
      if c = '/' then ([], rest)
      else
        let p := splitFirstSlash rest
        (c :: p.1, p.2)

/-- The idiom `part.strip() or None` applied to one side of a split:
the stripped text, or absent when it is empty. -/
def stripOrNone (l : List Char) : Option String :=
  let t := stripChars l
  if t.isEmpty then Option.none else some ⟨t⟩

/-- One side of the `"num/total"` split:
`int(a) if a and a.isdigit() else _safe_int(a)`.  On an all-digit string
`int(a)` succeeds and equals `pyIntOfString a`; otherwise `_safe_int`
absorbs any failure (and `_safe_int(None)` is `None`). -/
def slashSide : Option String → Option Int
  | Option.none => safe_int .none
  | some a => if pyIsDigit a then pyIntOfString a else safe_int (.str a)

/-- The scalar tail of `_parse_num_total` (source lines 29-43): runs after
the native-pair test, and can never raise — every conversion is guarded
by `isdigit` or wrapped in `_safe_int`. -/
def scalarTail (raw : PyVal) : Option Int × Option Int :=
  match pyFirst raw with
  | .none => (Option.none, Option.none)
  | .int n => (some n, Option.none)
  | v =>
      let s := pyStrip (pyStr v)
      if s.data.contains '/' then
        let p := splitFirstSlash s.data
        (slashSide (stripOrNone p.1), slashSide (stripOrNone p.2))
      else (safe_int (.str s), Option.none)

/-- Explicit `Except` sequencing (Python statement order: an earlier
exception aborts the rest). -/
def exBind {α β : Type} (x : Except PyErr α) (f : α → Except PyErr β) :
    Except PyErr β :=
  match x with
  | .error e => .error e
  | .ok v => f v

/-- Map over a successful result, passing exceptions through. -/
def exMap {α β : Type} (g : α → β) : Except PyErr α → Except PyErr β
  | .error e => .error e
  | .ok v => .ok (g v)

/-- `raw[0][0]` on the inner pair: `IndexError` when it is empty. -/
def pairIdx0 : List PyVal → Except PyErr PyVal
  | [] => .error .indexError
  | y :: _ => .ok y

/-- Python's bare `int()` builtin on a modelled value: raises on a
non-numeric string, on `None` and on sequences. -/
def pyInt : PyVal → Except PyErr Int
  | .int n => .ok n
  | .str s =>
      match pyIntOfString s with
      | some n => .ok n
      | Option.none => .error .valueError
  | .none => .error .valueError
  | .list _ => .error .valueError

/-- The expression `int(v) if v else None` of the native-pair branch:
a falsy `v` becomes absent, a truthy one goes through the bare `int()`,
which raises on a non-numeric value. -/
def coerceTruthy (v : PyVal) : Except PyErr (Option Int) :=
  if pyTruthy v then exMap some (pyInt v) else .ok Option.none

/-- The local helper `_parse_num_total` of `read_basic_tags`: normalizes
`'1/12'`, `'01/12'`, `'1'`, `('1','12')`, `((1,12),)` ... to an optional
`(num, total)` pair.  The native-pair branch (a non-empty sequence whose
first element is itself a sequence, as MP4 `disk`/`trkn` atoms are)
subscripts and `int()`-coerces without guards and so can raise; every
other branch is the pure `scalarTail`. -/
def parse_num_total (raw : PyVal) : Except PyErr (Option Int × Option Int) :=
  match raw with
  | .none => .ok (Option.none, Option.none)
  | .list (PyVal.list ys :: _) =>
      exBind (pairIdx0 ys) fun num =>
      exBind (coerceTruthy num) fun numv =>
      exBind (coerceTruthy (ys.getD 1 .none)) fun totv =>
      .ok (numv, totv)
  | raw => .ok (scalarTail raw)

/-- The canonical metadata record built by `read_basic_tags`: the `out`
dictionary of source lines 54-64.  The dictionary is `Dict[str, Any]`,
so every field is a `PyVal`; the code stores `None`, strings, and the
optional integers produced by `_parse_num_total`/`_safe_int`. -/
structure TagRecord where
  albumartist : PyVal
  album : PyVal
  disc : PyVal
  disc_total : PyVal
  track : PyVal
  track_total : PyVal
  artist : PyVal
  title : PyVal
  year : PyVal

/-- The initial `out` dictionary: every field `None`. -/
def emptyRecord : TagRecord :=
  ⟨.none, .none, .none, .none, .none, .none, .none, .none, .none⟩

/-- Store an `Optional[int]` into the `Any`-valued dictionary. -/
def pyOfOptInt : Option Int → PyVal
  | Option.none => .none
  | some n => .int n

/-- Store an `Optional[str]` into the `Any`-valued dictionary. -/
def pyOfOptStr : Option String → PyVal
  | Option.none => .none
  | some s => .str s

/-- Python string slice `s[:n]`. -/
def strTake (s : String) (n : Nat) : String := ⟨s.data.take n⟩

/-- The year lines shared by every branch of `read_basic_tags`
(e.g. lines 79-81): `if date_str: out["year"] = _safe_int(str(date_str)[:4])`,
leaving the initial `None` when `date_str` is falsy. -/
def yearVal (date : PyVal) : PyVal :=
  if pyTruthy date then pyOfOptInt (safe_int (.str (strTake (pyStr date) 4)))
  else .none

/-- The result of `mutagen.File(path)` as dispatched by the
`isinstance` checks of `read_basic_tags`:
a FLAC Vorbis-comment container, an MP4 atom container, an ID3 frame
container (either an `ID3` object or an object whose `.tags` is `ID3`;
each frame carries its `text` list, already through `str()`), or any
other recognized format, whose `tags` attribute may be `None`.
For FLAC/MP4 the code runs `audio.tags or {}`, which collapses a `None`
tag attribute and an empty container identically, so a plain list
suffices there. -/
inductive AudioFile where
  | flac (tags : List (String × PyVal))
  | mp4 (tags : List (String × PyVal))
  | id3 (frames : List (String × List String))
  | other (tags : Option (List (String × PyVal)))

/-- The local `get = lambda k: _first(tags.get(k))` of the FLAC branch. -/
def flacGet (tags : List (String × PyVal)) (k : String) : PyVal :=
  pyFirst (dictGet tags k)

/-- The FLAC branch (source lines 67-82): each field tries the lowercase
key and falls back (via Python `or`) to the all-uppercase variant. -/
def readFlac (tags : List (String × PyVal)) : Except PyErr TagRecord :=
  exBind (parse_num_total (pyOr (flacGet tags "discnumber") (flacGet tags "DISCNUMBER"))) fun ddt =>
  exBind (parse_num_total (pyOr (flacGet tags "tracknumber") (flacGet tags "TRACKNUMBER"))) fun ttt =>
  .ok
    { albumartist := pyOr (flacGet tags "albumartist") (flacGet tags "ALBUMARTIST")
      album := pyOr (flacGet tags "album") (flacGet tags "ALBUM")
      disc := pyOfOptInt ddt.1
      disc_total := pyOfOptInt ddt.2
      track := pyOfOptInt ttt.1
      track_total := pyOfOptInt ttt.2
      artist := pyOr (flacGet tags "artist") (flacGet tags "ARTIST")
      title := pyOr (flacGet tags "title") (flacGet tags "TITLE")
      year := yearVal (pyOr (flacGet tags "date") (flacGet tags "year")) }

/-- The MP4 branch (source lines 85-99): fixed atom names; `disk` and
`trkn` are fed to `_parse_num_total` raw (no `_first`), the text atoms
through `_first`. -/
def readMp4 (tags : List (String × PyVal)) : Except PyErr TagRecord :=
  exBind (parse_num_total (dictGet tags "disk")) fun ddt =>
  exBind (parse_num_total (dictGet tags "trkn")) fun ttt =>
  .ok
    { albumartist := pyFirst (dictGet tags "aART")
      album := pyFirst (dictGet tags "©alb")
      disc := pyOfOptInt ddt.1
      disc_total := pyOfOptInt ddt.2
      track := pyOfOptInt ttt.1
      track_total := pyOfOptInt ttt.2
      artist := pyFirst (dictGet tags "©ART")
      title := pyFirst (dictGet tags "©nam")
      year := yearVal (pyFirst (dictGet tags "©day")) }

/-- `k in id3` over the frame container model. -/
def framesHas (frames : List (String × List String)) (k : String) : Bool :=
  (frames.find? (fun p => strEq p.1 k)).isSome

/-- `id3[k].text` over the frame container model (only evaluated under a
`framesHas` guard). -/
def framesGet (frames : List (String × List String)) (k : String) : List String :=
  match frames.find? (fun p => strEq p.1 k) with
  | some p => p.2
  | Option.none => []

/-- `.text[0]`: `IndexError` on an empty text list. -/
def text0 (ts : List String) : Except PyErr String :=
  match ts with
  | [] => .error .indexError
  | t :: _ => .ok t

/-- The idiom `id3[k].text[0] if k in id3 else None`, producing the value
fed to `_parse_num_total` for `TPOS`/`TRCK`. -/
def id3TextVal (frames : List (String × List String)) (k : String) :
    Except PyErr PyVal :=
  if framesHas frames k then exMap PyVal.str (text0 (framesGet frames k))
  else .ok .none

/-- The idiom `id3[k].text[0] if k in id3 else None` kept as an optional
string (for `TALB`/`TPE1`/`TIT2` and the initial `TPE2` read). -/
def id3TextOpt (frames : List (String × List String)) (k : String) :
    Except PyErr (Option String) :=
  if framesHas frames k then exMap some (text0 (framesGet frames k))
  else .ok Option.none

/-- `not albumartist` for the `TPE2`→`TXXX:ALBUMARTIST` fallback test:
`None` and the empty string are falsy. -/
def optStrFalsy : Option String → Bool
  | Option.none => true
  | some s => s.data.isEmpty

/-- Source lines 104-108: read `TPE2`, then fall back to the
`TXXX:ALBUMARTIST` custom frame when the result is falsy. -/
def albumartistId3 (frames : List (String × List String)) :
    Except PyErr (Option String) :=
  exBind (id3TextOpt frames "TPE2") fun aa0 =>
  if optStrFalsy aa0 && framesHas frames "TXXX:ALBUMARTIST" then
    exMap some (text0 (framesGet frames "TXXX:ALBUMARTIST"))
  else .ok aa0

/-- Source lines 119-124: date string from `TDRC` preferred, `TYER` as
fallback (each already through `str()` in the frame model). -/
def dateId3 (frames : List (String × List String)) :
    Except PyErr (Option String) :=
  if framesHas frames "TDRC" then exMap some (text0 (framesGet frames "TDRC"))
  else if framesHas frames "TYER" then exMap some (text0 (framesGet frames "TYER"))
  else .ok Option.none

/-- The ID3 branch (source lines 102-127). -/
def readId3 (frames : List (String × List String)) : Except PyErr TagRecord :=
  exBind (albumartistId3 frames) fun aa =>
  exBind (id3TextOpt frames "TALB") fun album =>
  exBind (id3TextVal frames "TPOS") fun tpos =>
  exBind (parse_num_total tpos) fun ddt =>
  exBind (id3TextVal frames "TRCK") fun trck =>
  exBind (parse_num_total trck) fun ttt =>
  exBind (id3TextOpt frames "TPE1") fun artist =>
  exBind (id3TextOpt frames "TIT2") fun title =>
  exBind (dateId3 frames) fun dateStr =>
  .ok
    { albumartist := pyOfOptStr aa
      album := pyOfOptStr album
      disc := pyOfOptInt ddt.1
      disc_total := pyOfOptInt ddt.2
      track := pyOfOptInt ttt.1
      track_total := pyOfOptInt ttt.2
      artist := pyOfOptStr artist
      title := pyOfOptStr title
      year := yearVal (pyOfOptStr dateStr) }

/-- The generic fallback branch (source lines 130-143):
`tags = getattr(audio, "tags", None) or {}`, lowercase keys, raw gets for
the numeric fields and `_first` for the text fields. -/
def otherTags (otags : Option (List (String × PyVal))) : List (String × PyVal) :=
  match otags with
  | Option.none => []
  | some ts => ts

/-- Body of the generic branch over the resolved container. -/
def readOtherTags (tags : List (String × PyVal)) : Except PyErr TagRecord :=
  exBind (parse_num_total (pyOr (dictGet tags "discnumber") (dictGet tags "disc"))) fun ddt =>
  exBind (parse_num_total (pyOr (dictGet tags "tracknumber") (dictGet tags "track"))) fun ttt =>
  .ok
    { albumartist := pyFirst (dictGet tags "albumartist")
      album := pyFirst (dictGet tags "album")
      disc := pyOfOptInt ddt.1
      disc_total := pyOfOptInt ddt.2
      track := pyOfOptInt ttt.1
      track_total := pyOfOptInt ttt.2
      artist := pyFirst (dictGet tags "artist")
      title := pyFirst (dictGet tags "title")
      year := yearVal (pyFirst (pyOr (dictGet tags "date") (dictGet tags "year"))) }

/-- The generic fallback branch: resolve the tag attribute, then read. -/
def readOther (otags : Option (List (String × PyVal))) : Except PyErr TagRecord :=
  readOtherTags (otherTags otags)

/-- `read_basic_tags` (source lines 10-143): `mutagen.File(path)` is the
input — `Option.none` when mutagen cannot open or recognize the file, in
which case the function raises its "unsupported or corrupt" `ValueError`;
otherwise the container is dispatched by `isinstance` to the four
branches. -/
def read_basic_tags (audio : Option AudioFile) : Except PyErr TagRecord :=
  match audio with
  | Option.none => .error .unsupported
  | some (.flac tags) => readFlac tags
  | some (.mp4 tags) => readMp4 tags
  | some (.id3 frames) => readId3 frames
  | some (.other otags) => readOther otags

/-- The recognized audio extensions of `main` (source line 177). -/
def recognizedExts : List String :=
  [".flac", ".wav", ".alac", ".m4a", ".mp3", ".aac"]

/-- Python `str.lower()` (ASCII model, enough for extensions). -/
def lowerStr (s : String) : String := ⟨s.data.map Char.toLower⟩

/-- The discovery filter of `main` (source line 180):
`p.suffix.lower() in exts`, a case-insensitive extension match. -/
def discovers (suffix : String) : Bool :=
  decide (lowerStr suffix ∈ recognizedExts)

/-- Whether a path string begins with `/` (POSIX absolute). -/
def startsWithSlash (s : String) : Bool :=
  s.data.head? == some '/'

/-- Whether a path string ends with `/`. -/
def endsWithSlash (s : String) : Bool :=
  s.data.getLast? == some '/'

/-- POSIX `os.path.join(a, b)` for two components: an absolute `b`
replaces `a`; otherwise they are joined with a separator unless `a` is
empty or already ends in one. -/
def ospathJoin (a b : String) : String :=
  if startsWithSlash b then b
  else if a.data.isEmpty || endsWithSlash a then a ++ b
  else a ++ "/" ++ b

/-- Remove the `pathlib` suffix of the final path component, returning
the characters before the last `.` of that component (whole-path prefix
included), reading the reversed character list.  Mirrors `PurePath.suffix`:
the last `.` of the name counts only when it is neither the first nor the
last character of the name (`seen` records that a character follows the
dot; a `/` aborts the scan).  `Option.none` when the name has no suffix. -/
def chopSuffixRev (seen : Bool) : List Char → Option (List Char)
  | [] => Option.none
  | c :: rest =>
      if c = '/' then Option.none
      else if c = '.' then
        if seen && !rest.isEmpty && rest.head? != some '/' then some rest
        else Option.none
      else chopSuffixRev true rest

/-- `pathlib.Path.with_suffix` (used by `flac_to_alac_fp`, source line
149, as `dst.with_suffix(".m4a")`): replace the suffix of the final
component, or append the new suffix when there is none.  (Python raises
on an empty final component; the organizer always passes a name ending
in `".alac"`, so that case is not modelled.) -/
def with_suffix (p : String) (suf : String) : String :=
  match chopSuffixRev false p.data.reverse with
  | some stemRev => ⟨stemRev.reverse ++ suf.data⟩
  | Option.none => p ++ suf

/-- The destination directory name of `main` (source line 186):
`f'{tags["albumartist"]} - {tags["album"]} ({tags["year"]})'`, each field
through `str()`. -/
def audio_dirname (t : TagRecord) : String :=
  pyStr t.albumartist ++ " - " ++ pyStr t.album ++ " (" ++ pyStr t.year ++ ")"

/-- The destination base filename of `main` (source line 187):
`f'{tags["disc"]} - {tags["track"]} - {tags["title"]}'`. -/
def audio_basename (t : TagRecord) : String :=
  pyStr t.disc ++ " - " ++ pyStr t.track ++ " - " ++ pyStr t.title

/-- The per-file output action of `main`: transcode (via ffmpeg) to a
destination path, or copy (via `shutil.copy2`) to a destination path. -/
inductive FileAction where
  | transcode (dst : String)
  | copy (dst : String)
  deriving DecidableEq

/-- The dispatch of `main` (source lines 191-203) for one discovered
file, given its (case-sensitive) suffix and the computed names:
a `.flac` file goes to `flac_to_alac_fp` with destination
`os.path.join(audio_dirname, f'{audio_basename}.alac')`, whose suffix
`flac_to_alac_fp` immediately rewrites to `".m4a"`; every other file is
copied to `os.path.join(audio_dirname, f'{audio_basename}{suffix}')`.
Note neither destination includes the output root. -/
def dispatchFile (suffix dirname basename : String) : FileAction :=
  if suffix = ".flac" then
    .transcode (with_suffix (ospathJoin dirname (basename ++ ".alac")) ".m4a")
  else
    .copy (ospathJoin dirname (basename ++ suffix))

/-- The directory created by `main` (source line 189):
`os.makedirs(os.path.join(output_path, audio_dirname), exist_ok=True)`. -/
def plannedDirCreation (outputPath : String) (t : TagRecord) : String :=
  ospathJoin outputPath (audio_dirname t)

/-- Modelled from the spec: the textual composite form, formatting a
`(num, total)` pair as `"num/total"` (the program itself only parses
this form; the formatter exists to state the round-trip property). -/
def fmtNumTotal (n t : Nat) : String := toString n ++ "/" ++ toString t

/-- Test for the specific "unsupported or corrupt file" error. -/
def isUnsupErr {α : Type} : Except PyErr α → Bool
  | .error .unsupported => true
  | _ => false

/-- A dictionary value that is `None` or a plain `int` (never text). -/
def isIntOrNone : PyVal → Bool
  | .none => true
  | .int _ => true
  | _ => false

/-- The five numeric fields of a record hold plain integers when present. -/
def numericFieldsOk (r : TagRecord) : Prop :=
  isIntOrNone r.disc = true ∧ isIntOrNone r.disc_total = true ∧
  isIntOrNone r.track = true ∧ isIntOrNone r.track_total = true ∧
  isIntOrNone r.year = true

/-- Whether path `p` lies under the directory `root`. -/
def pathIsUnder (root p : String) : Bool :=
  List.isPrefixOf (root ++ "/").data p.data

theorem strData_app (a b : String) : (a ++ b).data = a.data ++ b.data := rfl

theorem strOfDataNil (s : String) (h : s.data = []) : s = "" :=
  String.ext (by rw [h])

theorem strAppend_assoc (a b c : String) : a ++ b ++ c = a ++ (b ++ c) :=
  String.ext (by simp [strData_app, List.append_assoc])

theorem unsup_exBind {α β : Type} {x : Except PyErr α} {f : α → Except PyErr β}
    (hx : isUnsupErr x = false) (hf : ∀ v, isUnsupErr (f v) = false) :
    isUnsupErr (exBind x f) = false := by
  cases x with
  | error e => cases e <;> exact hx
  | ok v => exact hf v

theorem unsup_exMap {α β : Type} (g : α → β) (x : Except PyErr α) :
    isUnsupErr (exMap g x) = isUnsupErr x := by
  cases x with
  | error e => cases e <;> rfl
  | ok v => rfl

theorem unsup_pyInt (v : PyVal) : isUnsupErr (pyInt v) = false := by
  cases v with
  | str s => cases h : pyIntOfString s <;> simp [pyInt, h, isUnsupErr]
  | none => rfl
  | int n => rfl
  | list xs => rfl

theorem unsup_coerceTruthy (v : PyVal) : isUnsupErr (coerceTruthy v) = false := by
  unfold coerceTruthy
  split
  · rw [unsup_exMap]
    exact unsup_pyInt v
  · rfl

theorem unsup_pairIdx0 (ys : List PyVal) : isUnsupErr (pairIdx0 ys) = false := by
  cases ys <;> rfl

theorem unsup_parse (raw : PyVal) : isUnsupErr (parse_num_total raw) = false := by
  cases raw with
  | none => rfl
  | int n => rfl
  | str s => rfl
  | list xs =>
      cases xs with
      | nil => rfl
      | cons y ys =>
          cases y with
          | list zs =>
              exact unsup_exBind (unsup_pairIdx0 zs) fun num =>
                unsup_exBind (unsup_coerceTruthy num) fun numv =>
                  unsup_exBind (unsup_coerceTruthy _) fun totv => rfl
          | none => rfl
          | int n => rfl
          | str s => rfl

theorem unsup_text0 (ts : List String) : isUnsupErr (text0 ts) = false := by
  cases ts <;> rfl

theorem unsup_id3TextVal (frames : List (String × List String)) (k : String) :
    isUnsupErr (id3TextVal frames k) = false := by
  unfold id3TextVal
  split
  · rw [unsup_exMap]
    exact unsup_text0 _
  · rfl

theorem unsup_id3TextOpt (frames : List (String × List String)) (k : String) :
    isUnsupErr (id3TextOpt frames k) = false := by
  unfold id3TextOpt
  split
  · rw [unsup_exMap]
    exact unsup_text0 _
  · rfl

theorem unsup_albumartistId3 (frames : List (String × List String)) :
    isUnsupErr (albumartistId3 frames) = false := by
  unfold albumartistId3
  refine unsup_exBind (unsup_id3TextOpt frames "TPE2") fun aa0 => ?_
  split
  · rw [unsup_exMap]
    exact unsup_text0 _
  · rfl

theorem unsup_dateId3 (frames : List (String × List String)) :
    isUnsupErr (dateId3 frames) = false := by
  unfold dateId3
  split
  · rw [unsup_exMap]
    exact unsup_text0 _
  · split
    · rw [unsup_exMap]
      exact unsup_text0 _
    · rfl

theorem unsup_readFlac (tags : List (String × PyVal)) :
    isUnsupErr (readFlac tags) = false :=
  unsup_exBind (unsup_parse _) fun _ =>
    unsup_exBind (unsup_parse _) fun _ => rfl

theorem unsup_readMp4 (tags : List (String × PyVal)) :
    isUnsupErr (readMp4 tags) = false :=
  unsup_exBind (unsup_parse _) fun _ =>
    unsup_exBind (unsup_parse _) fun _ => rfl

theorem unsup_readId3 (frames : List (String × List String)) :
    isUnsupErr (readId3 frames) = false :=
  unsup_exBind (unsup_albumartistId3 frames) fun _ =>
  unsup_exBind (unsup_id3TextOpt frames "TALB") fun _ =>
  unsup_exBind (unsup_id3TextVal frames "TPOS") fun _ =>
  unsup_exBind (unsup_parse _) fun _ =>
  unsup_exBind (unsup_id3TextVal frames "TRCK") fun _ =>
  unsup_exBind (unsup_parse _) fun _ =>
  unsup_exBind (unsup_id3TextOpt frames "TPE1") fun _ =>
  unsup_exBind (unsup_id3TextOpt frames "TIT2") fun _ =>
  unsup_exBind (unsup_dateId3 frames) fun _ => rfl

theorem unsup_readOther (otags : Option (List (String × PyVal))) :
    isUnsupErr (readOther otags) = false :=
  unsup_exBind (unsup_parse _) fun _ =>
    unsup_exBind (unsup_parse _) fun _ => rfl

theorem exBind_ok {α β : Type} {x : Except PyErr α} {f : α → Except PyErr β}
    {r : β} (h : exBind x f = .ok r) : ∃ v, x = .ok v ∧ f v = .ok r := by
  cases x with
  | error e => exact Except.noConfusion h
  | ok v => exact ⟨v, rfl, h⟩

theorem ion_pyOfOptInt (o : Option Int) : isIntOrNone (pyOfOptInt o) = true := by
  cases o <;> rfl

theorem ion_yearVal (d : PyVal) : isIntOrNone (yearVal d) = true := by
  unfold yearVal
  split
  · exact ion_pyOfOptInt _
  · rfl

theorem numeric_readFlac (tags : List (String × PyVal)) (r : TagRecord)
    (h : readFlac tags = .ok r) : numericFieldsOk r := by
  unfold readFlac at h
  obtain ⟨ddt, -, h⟩ := exBind_ok h
  obtain ⟨ttt, -, h⟩ := exBind_ok h
  obtain rfl := Except.ok.inj h
  exact ⟨ion_pyOfOptInt _, ion_pyOfOptInt _, ion_pyOfOptInt _,
    ion_pyOfOptInt _, ion_yearVal _⟩

theorem numeric_readMp4 (tags : List (String × PyVal)) (r : TagRecord)
    (h : readMp4 tags = .ok r) : numericFieldsOk r := by
  unfold readMp4 at h
  obtain ⟨ddt, -, h⟩ := exBind_ok h
  obtain ⟨ttt, -, h⟩ := exBind_ok h
  obtain rfl := Except.ok.inj h
  exact ⟨ion_pyOfOptInt _, ion_pyOfOptInt _, ion_pyOfOptInt _,
    ion_pyOfOptInt _, ion_yearVal _⟩

theorem numeric_readId3 (frames : List (String × List String)) (r : TagRecord)
    (h : readId3 frames = .ok r) : numericFieldsOk r := by
  unfold readId3 at h
  obtain ⟨aa, -, h⟩ := exBind_ok h
  obtain ⟨album, -, h⟩ := exBind_ok h
  obtain ⟨tpos, -, h⟩ := exBind_ok h
  obtain ⟨ddt, -, h⟩ := exBind_ok h
  obtain ⟨trck, -, h⟩ := exBind_ok h
  obtain ⟨ttt, -, h⟩ := exBind_ok h
  obtain ⟨artist, -, h⟩ := exBind_ok h
  obtain ⟨title, -, h⟩ := exBind_ok h
  obtain ⟨dateStr, -, h⟩ := exBind_ok h
  obtain rfl := Except.ok.inj h
  exact ⟨ion_pyOfOptInt _, ion_pyOfOptInt _, ion_pyOfOptInt _,
    ion_pyOfOptInt _, ion_yearVal _⟩

theorem numeric_readOther (otags : Option (List (String × PyVal))) (r : TagRecord)
    (h : readOther otags = .ok r) : numericFieldsOk r := by
  unfold readOther readOtherTags at h
  obtain ⟨ddt, -, h⟩ := exBind_ok h
  obtain ⟨ttt, -, h⟩ := exBind_ok h
  obtain rfl := Except.ok.inj h
  exact ⟨ion_pyOfOptInt _, ion_pyOfOptInt _, ion_pyOfOptInt _,
    ion_pyOfOptInt _, ion_yearVal _⟩

theorem chop_step (seen : Bool) (c : Char) (rest : List Char)
    (h1 : c ≠ '/') (h2 : c ≠ '.') :
    chopSuffixRev seen (c :: rest) = chopSuffixRev true rest := by
  simp only [chopSuffixRev, if_neg h1, if_neg h2]

theorem chop_dot (c : Char) (rest : List Char) (hc : c ≠ '/') :
    chopSuffixRev true ('.' :: c :: rest) = some (c :: rest) := by
  simp [chopSuffixRev, hc]

theorem chop_alac (pre bn : List Char) (h1 : bn ≠ [])
    (h2 : bn.getLast? ≠ some '/') :
    chopSuffixRev false ((pre ++ (bn ++ ('.' :: 'a' :: 'l' :: 'a' :: 'c' :: []))).reverse)
      = some ((pre ++ bn).reverse) := by
  obtain ⟨c, cs, hrev⟩ : ∃ c cs, bn.reverse = c :: cs := by
    cases hb : bn.reverse with
    | nil => exact absurd (List.reverse_eq_nil_iff.mp hb) h1
    | cons c cs => exact ⟨c, cs, rfl⟩
  have hgl : bn.getLast? = some c := by
    rw [← List.head?_reverse, hrev]
    rfl
  have hc : c ≠ '/' := fun hcc => h2 (by rw [hgl, hcc])
  rw [List.reverse_append, List.reverse_append,
    show ('.' :: 'a' :: 'l' :: 'a' :: 'c' :: []).reverse
        = 'c' :: 'a' :: 'l' :: 'a' :: '.' :: [] from rfl,
    List.append_assoc, hrev]
  rw [show ('c' :: 'a' :: 'l' :: 'a' :: '.' :: []) ++ (c :: cs ++ pre.reverse)
      = 'c' :: 'a' :: 'l' :: 'a' :: '.' :: c :: (cs ++ pre.reverse) by
    simp [List.cons_append]]
  rw [chop_step _ _ _ (by decide) (by decide),
    chop_step _ _ _ (by decide) (by decide),
    chop_step _ _ _ (by decide) (by decide),
    chop_step _ _ _ (by decide) (by decide),
    chop_dot c _ hc, List.reverse_append, hrev, List.cons_append]

theorem with_suffix_alac (P bn : String) (h1 : bn ≠ "")
    (h2 : bn.data.getLast? ≠ some '/') :
    with_suffix (P ++ bn ++ ".alac") ".m4a" = P ++ bn ++ ".m4a" := by
  have hbn : bn.data ≠ [] := fun h => h1 (strOfDataNil bn h)
  have hd : (P ++ bn ++ ".alac").data
      = P.data ++ (bn.data ++ ('.' :: 'a' :: 'l' :: 'a' :: 'c' :: [])) := by
    rw [strData_app, strData_app, List.append_assoc,
      show (".alac" : String).data = ('.' :: 'a' :: 'l' :: 'a' :: 'c' :: []) from rfl]
  unfold with_suffix
  rw [hd, chop_alac P.data bn.data hbn h2]
  show String.mk (((P.data ++ bn.data).reverse).reverse ++ (".m4a" : String).data)
      = P ++ bn ++ ".m4a"
  rw [List.reverse_reverse]
  rfl

theorem strNilAppend (s : String) : "" ++ s = s := String.ext rfl

theorem startsWithSlash_append (basename X : String) {c : Char}
    {cs : List Char} (hcons : basename.data = c :: cs) :
    startsWithSlash (basename ++ X) = startsWithSlash basename := by
  unfold startsWithSlash
  rw [strData_app, hcons, List.cons_append, List.head?_cons, List.head?_cons]

theorem flac_with_suffix_join (dirname basename : String) (h1 : basename ≠ "")
    (h2 : basename.data.getLast? ≠ some '/') :
    with_suffix (ospathJoin dirname (basename ++ ".alac")) ".m4a"
      = ospathJoin dirname (basename ++ ".m4a") := by
  obtain ⟨c, cs, hcons⟩ : ∃ c cs, basename.data = c :: cs := by
    cases hb : basename.data with
    | nil => exact absurd (strOfDataNil basename hb) h1
    | cons c cs => exact ⟨c, cs, rfl⟩
  unfold ospathJoin
  rw [startsWithSlash_append basename ".alac" hcons,
    startsWithSlash_append basename ".m4a" hcons]
  by_cases hsw : startsWithSlash basename = true
  · rw [if_pos hsw, if_pos hsw]
    have h := with_suffix_alac "" basename h1 h2
    rw [strNilAppend] at h
    exact h
  · rw [if_neg hsw, if_neg hsw]
    by_cases hdc : (dirname.data.isEmpty || endsWithSlash dirname) = true
    · rw [if_pos hdc, if_pos hdc, ← strAppend_assoc, ← strAppend_assoc]
      exact with_suffix_alac dirname basename h1 h2
    · rw [if_neg hdc, if_neg hdc, ← strAppend_assoc, ← strAppend_assoc]
      exact with_suffix_alac (dirname ++ "/") basename h1 h2

/-- C1: the spec requires every directory and file the organizer creates
to lie under the destination root (and the source never touched).  The
code creates the directory under the output root, but both per-file
output paths are built by `os.path.join(audio_dirname, ...)` without the
output root: for an all-absent-tags `.mp3` source and destination root
`/dest`, the copy target is the relative path
`"None - None (None)/None - None - None.mp3"`, which does not lie under
`/dest`.  This theorem evaluates the code at that failing input. -/
theorem thm_c1 :
    plannedDirCreation "/dest" emptyRecord = "/dest/None - None (None)"
    ∧ dispatchFile ".mp3" (audio_dirname emptyRecord) (audio_basename emptyRecord)
        = FileAction.copy "None - None (None)/None - None - None.mp3"
    ∧ pathIsUnder "/dest" "None - None (None)/None - None - None.mp3" = false :=
  ⟨rfl, rfl, rfl⟩

/-- C2 counterexample: the claim as stated fails for a discovered
`.flac` file whose computed base name ends in `/` (a title stored as
`"abc/"` gives base name `"1 - 2 - abc/"`).  The joined destination's
final path component is then the bare `".alac"`, which the
`with_suffix(".m4a")` of `flac_to_alac_fp` treats as having no suffix
and so appends: the output is `"D/1 - 2 - abc/.alac.m4a"`, not the
computed base name with extension `.m4a`. -/
theorem thm_c2_cex :
    discovers ".flac" = true
    ∧ dispatchFile ".flac" "D" "1 - 2 - abc/"
        = FileAction.transcode "D/1 - 2 - abc/.alac.m4a"
    ∧ dispatchFile ".flac" "D" "1 - 2 - abc/"
        ≠ FileAction.transcode (ospathJoin "D" ("1 - 2 - abc/" ++ ".m4a")) := by
  refine ⟨rfl, rfl, ?_⟩
  decide

/-- C2 (amended): for every discovered file (case-insensitive extension
match), extension `.flac` dispatches to the transcoder and — provided
the computed base name is non-empty and does not end in `/` — the output
carries the computed base name with extension `.m4a`; any other
extension dispatches to a copy with the original extension preserved.
(The proviso is forced by the counterexample: a base name ending in `/`
leaves `.alac` as the whole final path component, which the suffix
replacement treats as suffix-less and appends to instead.) -/
theorem thm_c2 (suffix dirname basename : String)
    (_hdisc : discovers suffix = true) (h1 : basename ≠ "")
    (h2 : basename.data.getLast? ≠ some '/') :
    dispatchFile suffix dirname basename =
      if suffix = ".flac" then
        FileAction.transcode (ospathJoin dirname (basename ++ ".m4a"))
      else FileAction.copy (ospathJoin dirname (basename ++ suffix)) := by
  unfold dispatchFile
  by_cases hs : suffix = ".flac"
  · rw [if_pos hs, if_pos hs, flac_with_suffix_join dirname basename h1 h2]
  · rw [if_neg hs, if_neg hs]

/-- Witness for C2 at the spec's end-to-end FLAC scenario. -/
theorem thm_c2_witness :
    dispatchFile ".flac" "Artist - Album (2020)" "1 - 2 - Song"
      = FileAction.transcode "Artist - Album (2020)/1 - 2 - Song.m4a" :=
  (thm_c2 ".flac" "Artist - Album (2020)" "1 - 2 - Song" (by decide) (by decide)
    (by decide)).trans (by decide)

/-- C3: the claim says the native-pair branch never raises and turns
non-numeric or missing parts into absent values.  In the code `int(num)`
is guarded only by truthiness, so the native pair `[("a", "2")]` raises
`ValueError`, and the empty inner pair `[[]]` raises `IndexError` from
`raw[0][0]`. -/
theorem thm_c3 :
    parse_num_total (.list [.list [.str "a", .str "2"]]) = .error .valueError
    ∧ parse_num_total (.list [.list []]) = .error .indexError :=
  ⟨rfl, rfl⟩

/-- C4: composite parsing of `"7"` yields `(7, absent)`, of `""` and of
`None` yields `(absent, absent)`, and of `"a/b"` yields
`(absent, absent)`; all four return normally, raising nothing. -/
theorem thm_c4 :
    parse_num_total (.str "7") = .ok (some 7, Option.none)
    ∧ parse_num_total (.str "") = .ok (Option.none, Option.none)
    ∧ parse_num_total .none = .ok (Option.none, Option.none)
    ∧ parse_num_total (.str "a/b") = .ok (Option.none, Option.none) :=
  ⟨rfl, rfl, rfl, rfl⟩

/-- C5: formatting the pair `(3, 12)` as `"3/12"` and reparsing yields
`(3, 12)` back. -/
theorem thm_c5 :
    fmtNumTotal 3 12 = "3/12"
    ∧ parse_num_total (.str (fmtNumTotal 3 12)) = .ok (some 3, some 12) := by
  have hf : fmtNumTotal 3 12 = "3/12" := by decide
  refine ⟨hf, ?_⟩
  rw [hf]
  rfl

/-- C6: year extraction takes the first 4 characters of the date string
and integer-parses them, yielding absent (never an error) on failure:
`"2016-05-20"` and `"2016"` yield `2016`, `"abcd"` yields absent, and an
absent date yields an absent year. -/
theorem thm_c6 :
    yearVal (.str "2016-05-20") = .int 2016
    ∧ yearVal (.str "2016") = .int 2016
    ∧ yearVal (.str "abcd") = .none
    ∧ yearVal .none = .none :=
  ⟨rfl, rfl, rfl, rfl⟩

/-- C7: a normalized record with all fields absent yields destination
directory name `"None - None (None)"` and filename stem
`"None - None - None"` with the original extension appended on the copy
path; the absent placeholder is the literal text `"None"` in every
position. -/
theorem thm_c7 (t : TagRecord) (ext : String)
    (haa : t.albumartist = .none) (hal : t.album = .none)
    (hy : t.year = .none) (hd : t.disc = .none) (htr : t.track = .none)
    (hti : t.title = .none) :
    audio_dirname t = "None - None (None)"
    ∧ audio_basename t = "None - None - None"
    ∧ (ext ≠ ".flac" →
        dispatchFile ext (audio_dirname t) (audio_basename t)
          = FileAction.copy ("None - None (None)/None - None - None" ++ ext)) := by
  have h1 : audio_dirname t = "None - None (None)" := by
    unfold audio_dirname
    rw [haa, hal, hy]
    rfl
  have h2 : audio_basename t = "None - None - None" := by
    unfold audio_basename
    rw [hd, htr, hti]
    rfl
  refine ⟨h1, h2, fun hne => ?_⟩
  rw [h1, h2]
  unfold dispatchFile
  rw [if_neg hne]
  rfl

/-- Witness for C7: the all-absent record with a `.mp3` source. -/
theorem thm_c7_witness :
    audio_dirname emptyRecord = "None - None (None)"
    ∧ audio_basename emptyRecord = "None - None - None"
    ∧ dispatchFile ".mp3" (audio_dirname emptyRecord) (audio_basename emptyRecord)
        = FileAction.copy "None - None (None)/None - None - None.mp3" := by
  obtain ⟨w1, w2, w3⟩ := thm_c7 emptyRecord ".mp3" rfl rfl rfl rfl rfl rfl
  exact ⟨w1, w2, (w3 (by decide)).trans (by decide)⟩

/-- C8: the reader raises its unsupported-or-corrupt error exactly when
mutagen yields no container; a recognized container with no tags yields
the all-absent record in every branch, without error. -/
theorem thm_c8 :
    read_basic_tags Option.none = .error .unsupported
    ∧ (∀ a : AudioFile, isUnsupErr (read_basic_tags (some a)) = false)
    ∧ read_basic_tags (some (.flac [])) = .ok emptyRecord
    ∧ read_basic_tags (some (.mp4 [])) = .ok emptyRecord
    ∧ read_basic_tags (some (.id3 [])) = .ok emptyRecord
    ∧ read_basic_tags (some (.other Option.none)) = .ok emptyRecord := by
  refine ⟨rfl, ?_, rfl, rfl, rfl, rfl⟩
  intro a
  cases a with
  | flac tags => exact unsup_readFlac tags
  | mp4 tags => exact unsup_readMp4 tags
  | id3 frames => exact unsup_readId3 frames
  | other otags => exact unsup_readOther otags

/-- C9: in every container branch, whenever the reader returns a record
its disc, disc_total, track, track_total and year entries are plain
integers or absent — never text, never slash-bearing strings; and the
leading-zero composite `"01/12"` parses to the plain pair `(1, 12)`. -/
theorem thm_c9 :
    (∀ (a : AudioFile) (r : TagRecord),
        read_basic_tags (some a) = .ok r → numericFieldsOk r)
    ∧ parse_num_total (.str "01/12") = .ok (some 1, some 12) := by
  refine ⟨?_, rfl⟩
  intro a r h
  cases a with
  | flac tags => exact numeric_readFlac tags r h
  | mp4 tags => exact numeric_readMp4 tags r h
  | id3 frames => exact numeric_readId3 frames r h
  | other otags => exact numeric_readOther otags r h

/-- Witness for C9 at the empty FLAC container. -/
theorem thm_c9_witness : numericFieldsOk emptyRecord :=
  thm_c9.1 (AudioFile.flac []) emptyRecord rfl

/-- C10: in the FLAC branch a lowercase key whose first value is the
empty string is falsy, so the record takes the all-uppercase variant's
value; in the ID3 branch a `TPE2` frame whose text is the empty string
triggers the fallback to the `TXXX:ALBUMARTIST` custom frame. -/
theorem thm_c10 (s : String) :
    read_basic_tags (some (.flac
        [("albumartist", .list [.str ""]), ("ALBUMARTIST", .list [.str s])]))
      = .ok { emptyRecord with albumartist := .str s }
    ∧ read_basic_tags (some (.id3 [("TPE2", [""]), ("TXXX:ALBUMARTIST", [s])]))
      = .ok { emptyRecord with albumartist := .str s } :=
  ⟨rfl, rfl⟩
